import Mathlib

/-!
Shallow embedding of the RBAC permission engine of the loslc-links backend
(`backend/app/core/security/permissions.py`) together with the provider
operations `create_link` (`providers/link.py`) and `assign_role_to_user`
(`providers/user.py`).

Conventions of the embedding:
* SQLModel rows become Lean structures; nullable columns become `Option`.
* The SQL session is modelled by explicit state passing.  Read-only queries
  (`exec(select(...)).first()`, `get`) are `List.find?` over the corresponding
  table; a function that runs queries takes the current permission table and
  returns it alongside its result, so that the read-only character of the
  checker is a theorem rather than a convention.
* `raise HTTPException(...)` becomes `Except.error` of an `HTTPException`
  value; a normal return becomes `Except.ok`.
* Randomly generated ids (`gen_id`) are passed in as explicit parameters.
* `datetime` columns (`created_at`, `expires_at`) are omitted: no claim
  depends on them and real time is outside the embedding.
-/

/-! ### Data model (`app/core/db/models.py`) -/

/-- Row of the `roleuserlink` table: composite key `(user_id, role_id)`. -/
structure RoleUserLink where
  user_id : String
  role_id : String
  deriving DecidableEq, Repr

/-- Row of the `role` table.  `name` is nullable (anonymous / personal roles). -/
structure Role where
  id : String
  name : Option String
  deriving DecidableEq, Repr

/-- Row of the `permission` table.  `resource_id` and `role_id` are nullable. -/
structure Permission where
  permission_id : String
  resource_name : String
  resource_id : Option String
  action : String
  role_id : Option String
  deriving DecidableEq, Repr

/-- Row of the `user` table, carrying its resolved many-to-many `roles`
relationship (the checker receives users with roles already loaded). -/
structure User where
  id : String
  email : String
  username : String
  hashed_password : String
  name : String
  roles : List Role
  deriving DecidableEq, Repr

/-- Row of the `link` table (`created_at` omitted, see the header comment). -/
structure Link where
  id : String
  user_id : String
  label : String
  url : String
  description : Option String
  deriving DecidableEq, Repr

/-- `fastapi.HTTPException`, reduced to the two fields the code sets. -/
structure HTTPException where
  status_code : Nat
  detail : String
  deriving DecidableEq, Repr

/-- `MessageResponse` DTO. -/
structure MessageResponse where
  message : String
  deriving DecidableEq, Repr

/-! ### Constants (`permissions.py` module level) -/

def ADMIN_ROLE_NAME : String := "admin"

def USER_RESOURCE : String := "user"

def LINK_RESOURCE : String := "link"

def ACTION_READWRITE : String := "rw"

/-! ### Permission predicates (`permissions.py`) -/

/-- The permission table as seen through `db_session`. -/
abbrev Session := List Permission

/-- `has_permission(db_session, role, resource_name, resource_id, action_name)`:
`exec(select(Permission).where(role_id == role.id, resource_name == ...,
resource_id == ..., action == ...)).first() is not None`.  The queried
`resource_id` is a `str`, so the SQL equality `Permission.resource_id ==
resource_id` is `p.resource_id == some resource_id` (a NULL column never
equals a string).  The session is returned unchanged alongside the result. -/
def has_permission (db_session : Session) (role : Role)
    (resource_name resource_id action_name : String) : Bool × Session :=
  let permission := db_session.find? (fun p =>
    p.role_id == some role.id && p.resource_name == resource_name &&
      p.resource_id == some resource_id && p.action == action_name)
  (permission.isSome, db_session)

/-- `has_global_permission(db_session, role, resource_name, action_name)`:
same query without any condition on `resource_id`. -/
def has_global_permission (db_session : Session) (role : Role)
    (resource_name action_name : String) : Bool × Session :=
  let permission := db_session.find? (fun p =>
    p.role_id == some role.id && p.resource_name == resource_name &&
      p.action == action_name)
  (permission.isSome, db_session)

/-! ### Check models and the checker (`permissions.py`) -/

/-- The two pydantic check-request classes, as a tagged union.
`permissionCheckModel` is `PermissionCheckModel` (scoped; its `resource_id`
is stored here already stringified, as `_is_allowed` applies `str(...)`),
`globalPermissionCheckModel` is `GlobalPermissionCheckModel`. -/
inductive PCheckModel where
  | permissionCheckModel (resource_name : String) (resource_id : String)
      (action_names : List String)
  | globalPermissionCheckModel (resource_name : String)
      (action_names : List String)
  deriving DecidableEq, Repr

/-- The `action_names` field, shared by both variants. -/
def PCheckModel.action_names : PCheckModel → List String
  | .permissionCheckModel _ _ acts => acts
  | .globalPermissionCheckModel _ acts => acts

/-- The `PermissionChecker` pydantic model: its five configured fields. -/
structure PermissionChecker where
  db_session : Session
  roles : List Role
  bypass_role : Option String
  bypass_roles : List String
  pcheck_models : List PCheckModel
  deriving DecidableEq, Repr

/-- `PermissionChecker._is_allowed(role, pcheck, action_name)`: dispatch on the
class of the check-request, calling `has_permission` for a scoped request and
`has_global_permission` for a global one. -/
def _is_allowed (db_session : Session) (role : Role) (pcheck : PCheckModel)
    (action_name : String) : Bool × Session :=
  match pcheck with
  | .permissionCheckModel resource_name resource_id _ =>
      has_permission db_session role resource_name resource_id action_name
  | .globalPermissionCheckModel resource_name _ =>
      has_global_permission db_session role resource_name action_name

/-- `roles_to_check = [role.name for role in self.roles if role.name is not None]`. -/
def PermissionChecker.roles_to_check (c : PermissionChecker) : List String :=
  c.roles.filterMap (fun role => role.name)

/-- The bypass condition of `check()`:
`self.bypass_role in roles_to_check or any([bypass_role for bypass_role in
self.bypass_roles if bypass_role in roles_to_check])`.
`None in roles_to_check` is always false (the list holds strings), and
Python's `any` tests the *truthiness* of the matched names, so a matched
bypass role equal to the empty string does not trigger the bypass: hence the
`b != ""` in the second disjunct. -/
def PermissionChecker.bypassTriggered (c : PermissionChecker) : Bool :=
  (match c.bypass_role with
   | some b => c.roles_to_check.contains b
   | none => false) ||
  ((c.bypass_roles.filter (fun b => c.roles_to_check.contains b)).any
    (fun b => b != ""))

/-- Inner loop of the `either` branch: `for action_name in pcheck.action_names:
if self._is_allowed(...): return True`. -/
def eitherActions (db_session : Session) (role : Role) (pcheck : PCheckModel) :
    List String → Bool × Session
  | [] => (false, db_session)
  | action_name :: rest =>
    let r := _is_allowed db_session role pcheck action_name
    if r.1 then (true, r.2) else eitherActions r.2 role pcheck rest

/-- Middle loop of the `either` branch: `for pcheck in self.pcheck_models`. -/
def eitherChecks (db_session : Session) (role : Role) :
    List PCheckModel → Bool × Session
  | [] => (false, db_session)
  | pcheck :: rest =>
    let r := eitherActions db_session role pcheck pcheck.action_names
    if r.1 then (true, r.2) else eitherChecks r.2 role rest

/-- Outer loop of the `either` branch: `for role in self.roles`. -/
def eitherRoles (db_session : Session) (pchecks : List PCheckModel) :
    List Role → Bool × Session
  | [] => (false, db_session)
  | role :: rest =>
    let r := eitherChecks db_session role pchecks
    if r.1 then (true, r.2) else eitherRoles r.2 pchecks rest

/-- Inner loop of the all-of branch: every action of one check-request must be
allowed (`all_permissions_satisfied = False; break` on the first failure). -/
def allActions (db_session : Session) (role : Role) (pcheck : PCheckModel) :
    List String → Bool × Session
  | [] => (true, db_session)
  | action_name :: rest =>
    let r := _is_allowed db_session role pcheck action_name
    if r.1 then allActions r.2 role pcheck rest else (false, r.2)

/-- Middle loop of the all-of branch: every check-request must be satisfied. -/
def allChecks (db_session : Session) (role : Role) :
    List PCheckModel → Bool × Session
  | [] => (true, db_session)
  | pcheck :: rest =>
    let r := allActions db_session role pcheck pcheck.action_names
    if r.1 then allChecks r.2 role rest else (false, r.2)

/-- Outer loop of the all-of branch: the first role satisfying the full
conjunction causes `return True`. -/
def allRoles (db_session : Session) (pchecks : List PCheckModel) :
    List Role → Bool × Session
  | [] => (false, db_session)
  | role :: rest =>
    let r := allChecks db_session role pchecks
    if r.1 then (true, r.2) else allRoles r.2 pchecks rest

/-- `PermissionChecker.check(either)`.  Returns the result (`Except.ok true`
for `return True`, `Except.error` for `raise HTTPException(401, ...)`)
together with the final state of the permission store. -/
def PermissionChecker.check (c : PermissionChecker) (either : Bool) :
    Except HTTPException Bool × Session :=
  if c.bypassTriggered then
    (Except.ok true, c.db_session)
  else if either then
    let r := eitherRoles c.db_session c.pcheck_models c.roles
    if r.1 then (Except.ok true, r.2)
    else (Except.error ⟨401, "Not authorized to access this resource"⟩, r.2)
  else
    let r := allRoles c.db_session c.pcheck_models c.roles
    if r.1 then (Except.ok true, r.2)
    else (Except.error ⟨401, "Not authorized to access resource"⟩, r.2)

/-! ### Guard checkers (`app/core/security/checkers.py`, not in the sources) -/

/-- Modelled from the spec: `check_existence(value, status, detail)` from
`app/core/security/checkers.py` (the file is not among the sources; only its
callers are).  It fails with a not-found-class error when the value is
absent, and otherwise returns the value unchanged for chaining. -/
def check_existence (value : Option α) (status_code : Nat) (detail : String) :
    Except HTTPException α :=
  match value with
  | none => Except.error ⟨status_code, detail⟩
  | some v => Except.ok v

/-- Modelled from the spec: `check_non_existence(value, ...)` from
`app/core/security/checkers.py` (not among the sources).  It fails with a
conflict-class error when the value IS present. -/
def check_non_existence (value : Option α) (status_code : Nat)
    (detail : String) : Except HTTPException Unit :=
  match value with
  | some _ => Except.error ⟨status_code, detail⟩
  | none => Except.ok ()

/-! ### Builders (`app/core/db/builders/`, not in the sources) -/

/-- Modelled from the spec: `RoleBuilder` from `app/core/db/builders/role.py`
(not among the sources).  Fluent construction: `addUser` associates the role
with a user (many-to-many, accumulating), `withName` sets the optional name,
`make` produces a fully-formed, not yet persisted Role; omitting the name
yields an anonymous/personal role. -/
structure RoleBuilder where
  users : List User
  name : Option String

/-- A fresh `RoleBuilder()`. -/
def RoleBuilder.new : RoleBuilder := ⟨[], none⟩

/-- `RoleBuilder.addUser(user)`: accumulate a user association. -/
def RoleBuilder.addUser (b : RoleBuilder) (user : User) : RoleBuilder :=
  { b with users := b.users ++ [user] }

/-- `RoleBuilder.withName(name)`: set the optional display name. -/
def RoleBuilder.withName (b : RoleBuilder) (n : String) : RoleBuilder :=
  { b with name := some n }

/-- `RoleBuilder.make()`: the produced Role together with the `RoleUserLink`
rows its user associations persist as on commit.  The generated role id is
passed explicitly (it is random in the code). -/
def RoleBuilder.make (b : RoleBuilder) (role_id : String) :
    Role × List RoleUserLink :=
  (⟨role_id, b.name⟩, b.users.map (fun u => ⟨u.id, role_id⟩))

/-- Modelled from the spec: `PermissionBuilder` from
`app/core/db/builders/permission.py` (not among the sources).  Fluent
construction of a Permission; omitting `withResourceId` means a global
permission, and `forRole` must be called before `make` or the permission is
orphaned (an error condition, here `none`). -/
structure PermissionBuilder where
  action_name : Option String
  resource_name : Option String
  resource_id : Option String
  role : Option Role

/-- A fresh `PermissionBuilder()`. -/
def PermissionBuilder.new : PermissionBuilder := ⟨none, none, none, none⟩

/-- `PermissionBuilder.withActionName(a)`. -/
def PermissionBuilder.withActionName (b : PermissionBuilder) (a : String) :
    PermissionBuilder :=
  { b with action_name := some a }

/-- `PermissionBuilder.withResourceName(r)`. -/
def PermissionBuilder.withResourceName (b : PermissionBuilder) (r : String) :
    PermissionBuilder :=
  { b with resource_name := some r }

/-- `PermissionBuilder.withResourceId(i)` (the id is stringified). -/
def PermissionBuilder.withResourceId (b : PermissionBuilder) (i : String) :
    PermissionBuilder :=
  { b with resource_id := some i }

/-- `PermissionBuilder.forRole(role)`: bind ownership. -/
def PermissionBuilder.forRole (b : PermissionBuilder) (r : Role) :
    PermissionBuilder :=
  { b with role := some r }

/-- `PermissionBuilder.make()`: the produced Permission, or `none` for the
orphaned error condition.  The generated permission id is passed explicitly. -/
def PermissionBuilder.make (b : PermissionBuilder) (perm_id : String) :
    Option Permission :=
  match b.role, b.action_name, b.resource_name with
  | some role, some action, some rname =>
      some ⟨perm_id, rname, b.resource_id, action, some role.id⟩
  | _, _, _ => none

/-! ### Provider-level session state -/

/-- The committed contents of the database, one list per table the claims
touch. -/
structure DBState where
  users : List User
  roles : List Role
  permissions : List Permission
  role_user_links : List RoleUserLink
  links : List Link
  deriving DecidableEq, Repr

/-- A SQLModel session: the committed database plus the rows `add`ed but not
yet committed.  `commit` flushes the pending rows; a raise before `commit`
abandons them, so nothing pending ever persists on a failure path. -/
structure SessionState where
  committed : DBState
  pending_roles : List Role
  pending_permissions : List Permission
  pending_role_user_links : List RoleUserLink
  pending_links : List Link
  deriving DecidableEq, Repr

/-- `db_session.commit()`: flush every pending row into the database. -/
def SessionState.commit (s : SessionState) : SessionState :=
  { committed :=
      { users := s.committed.users
        roles := s.committed.roles ++ s.pending_roles
        permissions := s.committed.permissions ++ s.pending_permissions
        role_user_links :=
          s.committed.role_user_links ++ s.pending_role_user_links
        links := s.committed.links ++ s.pending_links }
    pending_roles := []
    pending_permissions := []
    pending_role_user_links := []
    pending_links := [] }

/-! ### `create_link` (`providers/link.py`) -/

/-- `create_link(db_session, current_user, data)`.  The three generated ids
(link, personal role, permission) are passed explicitly.  On the conflict
path (`check_non_existence` of an existing link with the same label) the
session is returned untouched: nothing was added, nothing committed. -/
def create_link (s : SessionState) (current_user : User)
    (label url : String) (description : Option String)
    (link_id role_id perm_id : String) :
    Except HTTPException Link × SessionState :=
  match check_non_existence
      (s.committed.links.find? (fun l => l.label == label)) 409
      "Resource already exists." with
  | Except.error e => (Except.error e, s)
  | Except.ok _ =>
    let link : Link := ⟨link_id, current_user.id, label, url, description⟩
    let made := (RoleBuilder.new.addUser current_user).make role_id
    let rw_role := made.1
    match ((((PermissionBuilder.new.forRole rw_role).withActionName
        ACTION_READWRITE).withResourceName
        LINK_RESOURCE).withResourceId link.id).make perm_id with
    | none => (Except.error ⟨500, "Orphaned permission."⟩, s)
    | some rw_perm =>
      let s1 := { s with
        pending_links := s.pending_links ++ [link]
        pending_roles := s.pending_roles ++ [rw_role]
        pending_role_user_links := s.pending_role_user_links ++ made.2
        pending_permissions := s.pending_permissions ++ [rw_perm] }
      (Except.ok link, s1.commit)

/-! ### `assign_role_to_user` (`providers/user.py`) -/

/-- The `PermissionChecker` that `assign_role_to_user` builds: admin bypass
role, one global check-request on the user resource with action `rw`. -/
def assignRoleChecker (s : SessionState) (current_user : User) :
    PermissionChecker :=
  { db_session := s.committed.permissions
    roles := current_user.roles
    bypass_role := some ADMIN_ROLE_NAME
    bypass_roles := []
    pcheck_models :=
      [PCheckModel.globalPermissionCheckModel USER_RESOURCE
        [ACTION_READWRITE]] }

/-- `assign_role_to_user(db_session, current_user, user_id, role_id)`:
permission check, existence checks for user and role, then either the
"already has this role" no-op or the insertion of one `RoleUserLink` row
followed by a commit. -/
def assign_role_to_user (s : SessionState) (current_user : User)
    (user_id role_id : String) :
    Except HTTPException MessageResponse × SessionState :=
  match ((assignRoleChecker s current_user).check false).1 with
  | Except.error e => (Except.error e, s)
  | Except.ok _ =>
    match check_existence (s.committed.users.find? (fun u => u.id == user_id))
        404 "User not found." with
    | Except.error e => (Except.error e, s)
    | Except.ok _ =>
      match check_existence
          (s.committed.roles.find? (fun r => r.id == role_id))
          404 "Role not found." with
      | Except.error e => (Except.error e, s)
      | Except.ok _ =>
        match s.committed.role_user_links.find?
            (fun l => l.user_id == user_id && l.role_id == role_id) with
        | some _ => (Except.ok ⟨"User already has this role."⟩, s)
        | none =>
          let s1 := { s with pending_role_user_links :=
                        s.pending_role_user_links ++
                          [RoleUserLink.mk user_id role_id] }
          (Except.ok ⟨"Role assigned to user successfully."⟩, s1.commit)

/-! ### Derived predicates used to state the claims -/

/-- The predicate `_is_allowed` selects for a triple (role, check-request,
action): `has_permission` for a scoped request, `has_global_permission` for a
global one. -/
def selectedPredicate (db : Session) (role : Role) (m : PCheckModel)
    (a : String) : Bool :=
  match m with
  | .permissionCheckModel resource_name resource_id _ =>
      (has_permission db role resource_name resource_id a).1
  | .globalPermissionCheckModel resource_name _ =>
      (has_global_permission db role resource_name a).1

/-- Some triple (role, check-request, action) of the checker satisfies its
selected predicate. -/
def PermissionChecker.eitherHolds (c : PermissionChecker) : Bool :=
  c.roles.any (fun role => c.pcheck_models.any (fun m =>
    m.action_names.any (fun a => selectedPredicate c.db_session role m a)))

/-- Some single role of the checker satisfies every action of every
check-request. -/
def PermissionChecker.allHolds (c : PermissionChecker) : Bool :=
  c.roles.any (fun role => c.pcheck_models.all (fun m =>
    m.action_names.all (fun a => selectedPredicate c.db_session role m a)))

/-! ### Concrete fixtures for the witnesses -/

/-- An anonymous (personal) role. -/
def roleR1 : Role := ⟨"r1", none⟩

/-- A scoped read-write permission on link "L1" for `roleR1`. -/
def permRW : Permission :=
  ⟨"p1", LINK_RESOURCE, some "L1", ACTION_READWRITE, some "r1"⟩

/-- A checker whose single role holds the single scoped permission it checks. -/
def exampleChecker : PermissionChecker :=
  ⟨[permRW], [roleR1], none, [],
   [PCheckModel.permissionCheckModel LINK_RESOURCE "L1" [ACTION_READWRITE]]⟩

/-- A checker with one role and no check-requests at all. -/
def emptyModelsChecker : PermissionChecker :=
  ⟨[], [roleR1], none, [], []⟩

/-- A named admin role. -/
def adminRole : Role := ⟨"r2", some "admin"⟩

/-- A checker whose caller holds the bypass role and whose single
check-request no permission row could satisfy (the store is empty). -/
def adminChecker : PermissionChecker :=
  ⟨[], [adminRole], some ADMIN_ROLE_NAME, [],
   [PCheckModel.permissionCheckModel LINK_RESOURCE "X" [ACTION_READWRITE]]⟩

/-- A checker whose caller holds a role named by the empty string, which is
also a member of the configured bypass-role list. -/
def emptyNameBypassChecker : PermissionChecker :=
  ⟨[], [⟨"r3", some ""⟩], none, [""], []⟩

/-- A user holding the admin role. -/
def adminUser : User :=
  ⟨"u1", "alice@example.com", "alice", "hp", "Alice", [adminRole]⟩

/-- A named role a user can be assigned to. -/
def targetRole : Role := ⟨"r9", some "editors"⟩

/-- A committed database holding `adminUser` and `targetRole`. -/
def baseDB : DBState := ⟨[adminUser], [targetRole], [], [], []⟩

/-- A session over `baseDB` with nothing pending. -/
def baseSession : SessionState := ⟨baseDB, [], [], [], []⟩

/-- A session over `baseDB` in which `adminUser` already holds `targetRole`. -/
def linkedSession : SessionState :=
  ⟨⟨[adminUser], [targetRole], [], [⟨"u1", "r9"⟩], []⟩, [], [], [], []⟩

/-! ### Helper lemmas: the loops compute `any`/`all` and preserve the store -/

theorem _is_allowed_eq (db : Session) (role : Role) (m : PCheckModel)
    (a : String) :
    _is_allowed db role m a = (selectedPredicate db role m a, db) := by
  cases m <;> rfl

theorem eitherActions_eq (db : Session) (role : Role) (m : PCheckModel) :
    ∀ acts : List String,
      eitherActions db role m acts =
        (acts.any (fun a => selectedPredicate db role m a), db)
  | [] => rfl
  | a :: rest => by
    simp only [eitherActions, _is_allowed_eq]
    cases h : selectedPredicate db role m a
    · simp [h, eitherActions_eq db role m rest]
    · simp [h]

theorem eitherChecks_eq (db : Session) (role : Role) :
    ∀ ms : List PCheckModel,
      eitherChecks db role ms =
        (ms.any (fun m => m.action_names.any
          (fun a => selectedPredicate db role m a)), db)
  | [] => rfl
  | m :: rest => by
    simp only [eitherChecks, eitherActions_eq]
    cases h : m.action_names.any (fun a => selectedPredicate db role m a)
    · simp [h, eitherChecks_eq db role rest]
    · simp [h]

theorem eitherRoles_eq (db : Session) (ms : List PCheckModel) :
    ∀ roles : List Role,
      eitherRoles db ms roles =
        (roles.any (fun role => ms.any (fun m => m.action_names.any
          (fun a => selectedPredicate db role m a))), db)
  | [] => rfl
  | role :: rest => by
    simp only [eitherRoles, eitherChecks_eq]
    cases h : ms.any (fun m => m.action_names.any
        (fun a => selectedPredicate db role m a))
    · simp [h, eitherRoles_eq db ms rest]
    · simp [h]

theorem allActions_eq (db : Session) (role : Role) (m : PCheckModel) :
    ∀ acts : List String,
      allActions db role m acts =
        (acts.all (fun a => selectedPredicate db role m a), db)
  | [] => rfl
  | a :: rest => by
    simp only [allActions, _is_allowed_eq]
    cases h : selectedPredicate db role m a
    · simp [h]
    · simp [h, allActions_eq db role m rest]

theorem allChecks_eq (db : Session) (role : Role) :
    ∀ ms : List PCheckModel,
      allChecks db role ms =
        (ms.all (fun m => m.action_names.all
          (fun a => selectedPredicate db role m a)), db)
  | [] => rfl
  | m :: rest => by
    simp only [allChecks, allActions_eq]
    cases h : m.action_names.all (fun a => selectedPredicate db role m a)
    · simp [h]
    · simp [h, allChecks_eq db role rest]

theorem allRoles_eq (db : Session) (ms : List PCheckModel) :
    ∀ roles : List Role,
      allRoles db ms roles =
        (roles.any (fun role => ms.all (fun m => m.action_names.all
          (fun a => selectedPredicate db role m a))), db)
  | [] => rfl
  | role :: rest => by
    simp only [allRoles, allChecks_eq]
    cases h : ms.all (fun m => m.action_names.all
        (fun a => selectedPredicate db role m a))
    · simp [h, allRoles_eq db ms rest]
    · simp [h]

theorem allRoles_snd (db : Session) (ms : List PCheckModel)
    (roles : List Role) : (allRoles db ms roles).2 = db := by
  rw [allRoles_eq]

theorem eitherRoles_snd (db : Session) (ms : List PCheckModel)
    (roles : List Role) : (eitherRoles db ms roles).2 = db := by
  rw [eitherRoles_eq]

theorem check_eq (c : PermissionChecker) (either : Bool) :
    c.check either =
      (if c.bypassTriggered then Except.ok true
       else if either then
         if c.eitherHolds then Except.ok true
         else Except.error ⟨401, "Not authorized to access this resource"⟩
       else
         if c.allHolds then Except.ok true
         else Except.error ⟨401, "Not authorized to access resource"⟩,
       c.db_session) := by
  have hall : c.allHolds =
      (allRoles c.db_session c.pcheck_models c.roles).1 := by
    rw [allRoles_eq]
    rfl
  have heither : c.eitherHolds =
      (eitherRoles c.db_session c.pcheck_models c.roles).1 := by
    rw [eitherRoles_eq]
    rfl
  unfold PermissionChecker.check
  rw [hall, heither]
  cases hb : c.bypassTriggered
  · cases either
    · cases ha : (allRoles c.db_session c.pcheck_models c.roles).1 <;>
        simp [ha, allRoles_snd]
    · cases he : (eitherRoles c.db_session c.pcheck_models c.roles).1 <;>
        simp [he, eitherRoles_snd]
  · simp

theorem check_snd (c : PermissionChecker) (either : Bool) :
    (c.check either).2 = c.db_session := by
  rw [check_eq]

theorem eitherHolds_iff (c : PermissionChecker) :
    c.eitherHolds = true ↔
      ∃ role ∈ c.roles, ∃ m ∈ c.pcheck_models, ∃ a ∈ m.action_names,
        selectedPredicate c.db_session role m a = true := by
  simp [PermissionChecker.eitherHolds, List.any_eq_true]

theorem allHolds_iff (c : PermissionChecker) :
    c.allHolds = true ↔
      ∃ role ∈ c.roles, ∀ m ∈ c.pcheck_models, ∀ a ∈ m.action_names,
        selectedPredicate c.db_session role m a = true := by
  simp [PermissionChecker.allHolds, List.any_eq_true, List.all_eq_true]

theorem has_permission_fst_iff (db : Session) (role : Role)
    (resource_name resource_id action_name : String) :
    (has_permission db role resource_name resource_id action_name).1 = true ↔
      ∃ p ∈ db, p.role_id = some role.id ∧ p.resource_name = resource_name ∧
        p.resource_id = some resource_id ∧ p.action = action_name := by
  simp [has_permission, List.find?_isSome, and_assoc]

theorem has_global_permission_fst_iff (db : Session) (role : Role)
    (resource_name action_name : String) :
    (has_global_permission db role resource_name action_name).1 = true ↔
      ∃ p ∈ db, p.role_id = some role.id ∧ p.resource_name = resource_name ∧
        p.action = action_name := by
  simp [has_global_permission, List.find?_isSome, and_assoc]

theorem bypassTriggered_of_match (c : PermissionChecker)
    (h : (∃ role ∈ c.roles, ∃ b, role.name = some b ∧ c.bypass_role = some b) ∨
         (∃ role ∈ c.roles, ∃ b ∈ c.bypass_roles,
            role.name = some b ∧ b ≠ "")) :
    c.bypassTriggered = true := by
  unfold PermissionChecker.bypassTriggered PermissionChecker.roles_to_check
  rcases h with ⟨role, hmem, b, hname, hbp⟩ | ⟨role, hmem, b, hb, hname, hne⟩
  · rw [hbp]
    simp [List.elem_iff, List.mem_filterMap]
    exact Or.inl ⟨role, hmem, hname⟩
  · simp [List.any_eq_true, List.mem_filter, List.elem_iff, List.mem_filterMap]
    exact Or.inr ⟨b, hb, ⟨role, hmem, hname⟩, hne⟩

/-! ### The claims -/

/-- Claim C1: in all-of mode (`either=false`, no bypass role matching),
`check()` returns allow iff a single role satisfies the selected predicate
(`has_permission` for scoped requests, `has_global_permission` for global
ones, via `selectedPredicate`) for every check-request and every listed
action; with an empty role list it always raises Unauthorized. -/
theorem check_all_of_characterization (c : PermissionChecker)
    (h : c.bypassTriggered = false) :
    ((c.check false).1 = Except.ok true ↔
      ∃ role ∈ c.roles, ∀ m ∈ c.pcheck_models, ∀ a ∈ m.action_names,
        selectedPredicate c.db_session role m a = true) ∧
    (c.roles = [] →
      (c.check false).1 =
        Except.error ⟨401, "Not authorized to access resource"⟩) := by
  constructor
  · rw [check_eq]
    rw [← allHolds_iff]
    cases ha : c.allHolds <;> simp [h, ha]
  · intro hr
    rw [check_eq]
    have hfalse : c.allHolds = false := by
      simp [PermissionChecker.allHolds, hr]
    simp [h, hfalse]

/-- Witness for C1: a checker whose single role holds the single scoped
permission it checks, evaluated concretely. -/
theorem check_all_of_characterization_witness :
    (((exampleChecker.check false).1 = Except.ok true ↔
      ∃ role ∈ exampleChecker.roles, ∀ m ∈ exampleChecker.pcheck_models,
        ∀ a ∈ m.action_names,
          selectedPredicate exampleChecker.db_session role m a = true) ∧
    (exampleChecker.roles = [] →
      (exampleChecker.check false).1 =
        Except.error ⟨401, "Not authorized to access resource"⟩)) :=
  check_all_of_characterization exampleChecker rfl

/-- Claim C2: in any-of mode (`either=true`, no bypass role matching),
`check()` returns allow iff at least one (role, check-request, action) triple
satisfies its selected predicate, and raises Unauthorized iff no triple
does. -/
theorem check_any_of_characterization (c : PermissionChecker)
    (h : c.bypassTriggered = false) :
    ((c.check true).1 = Except.ok true ↔
      ∃ role ∈ c.roles, ∃ m ∈ c.pcheck_models, ∃ a ∈ m.action_names,
        selectedPredicate c.db_session role m a = true) ∧
    ((c.check true).1 =
        Except.error ⟨401, "Not authorized to access this resource"⟩ ↔
      ¬ ∃ role ∈ c.roles, ∃ m ∈ c.pcheck_models, ∃ a ∈ m.action_names,
        selectedPredicate c.db_session role m a = true) := by
  rw [check_eq]
  simp only [← eitherHolds_iff]
  cases he : c.eitherHolds <;> simp [h, he]

/-- Witness for C2: the same concrete checker, evaluated in any-of mode. -/
theorem check_any_of_characterization_witness :
    (((exampleChecker.check true).1 = Except.ok true ↔
      ∃ role ∈ exampleChecker.roles, ∃ m ∈ exampleChecker.pcheck_models,
        ∃ a ∈ m.action_names,
          selectedPredicate exampleChecker.db_session role m a = true) ∧
    ((exampleChecker.check true).1 =
        Except.error ⟨401, "Not authorized to access this resource"⟩ ↔
      ¬ ∃ role ∈ exampleChecker.roles, ∃ m ∈ exampleChecker.pcheck_models,
        ∃ a ∈ m.action_names,
          selectedPredicate exampleChecker.db_session role m a = true)) :=
  check_any_of_characterization exampleChecker rfl

/-- Counterexample to C3 as stated: the caller's role is named by the empty
string, which is a member of the configured bypass-role list, yet
`check(either=true)` raises Unauthorized instead of returning allow, because
Python's `any` on the list of matched bypass-role names tests their
truthiness and `""` is falsy. -/
theorem check_bypass_counterexample :
    (∃ role ∈ emptyNameBypassChecker.roles,
        ∃ b ∈ emptyNameBypassChecker.bypass_roles, role.name = some b) ∧
      (emptyNameBypassChecker.check true).1 =
        Except.error ⟨401, "Not authorized to access this resource"⟩ :=
  ⟨by decide, rfl⟩

/-- Claim C3 (amended): if some role's non-null name equals the configured
`bypass_role`, or is a *non-empty* member of the configured `bypass_roles`
list, then `check()` returns allow in both modes, for every `pcheck_models`
list, leaving the store untouched (no predicate is evaluated). -/
theorem check_bypass_allows (c : PermissionChecker) (either : Bool)
    (h : (∃ role ∈ c.roles, ∃ b, role.name = some b ∧ c.bypass_role = some b) ∨
         (∃ role ∈ c.roles, ∃ b ∈ c.bypass_roles,
            role.name = some b ∧ b ≠ "")) :
    c.check either = (Except.ok true, c.db_session) := by
  rw [check_eq]
  simp [bypassTriggered_of_match c h]

/-- Witness for C3 (amended): a caller holding the "admin" bypass role passes
a check no permission row could satisfy. -/
theorem check_bypass_allows_witness :
    adminChecker.check true = (Except.ok true, adminChecker.db_session) :=
  check_bypass_allows adminChecker true
    (Or.inl ⟨adminRole, by decide, "admin", rfl, rfl⟩)

/-- Claim C4: `has_global_permission` returns true iff some Permission row
has that role_id, resource_name and action, with no condition whatsoever on
the row's `resource_id`; in particular a row carrying any `resource_id`
(null or not) satisfies the global check. -/
theorem has_global_permission_characterization (db : Session) (role : Role)
    (resource_name action_name : String) :
    ((has_global_permission db role resource_name action_name).1 = true ↔
      ∃ p ∈ db, p.role_id = some role.id ∧ p.resource_name = resource_name ∧
        p.action = action_name) ∧
    (∀ pid rid,
      (has_global_permission
        (⟨pid, resource_name, rid, action_name, some role.id⟩ :: db) role
        resource_name action_name).1 = true) := by
  refine ⟨has_global_permission_fst_iff db role resource_name action_name, ?_⟩
  intro pid rid
  rw [has_global_permission_fst_iff]
  exact ⟨⟨pid, resource_name, rid, action_name, some role.id⟩,
    List.mem_cons_self _ _, rfl, rfl, rfl⟩

/-- Claim C5: `has_permission` returns true iff some Permission row matches
the role, resource_name, action and exactly the queried resource_id as a
string; when every row's resource_id differs from the queried one (including
null rows), the scoped check returns false. -/
theorem has_permission_characterization (db : Session) (role : Role)
    (resource_name resource_id action_name : String) :
    ((has_permission db role resource_name resource_id action_name).1 = true ↔
      ∃ p ∈ db, p.role_id = some role.id ∧ p.resource_name = resource_name ∧
        p.resource_id = some resource_id ∧ p.action = action_name) ∧
    ((∀ p ∈ db, p.resource_id ≠ some resource_id) →
      (has_permission db role resource_name resource_id action_name).1 =
        false) := by
  refine ⟨has_permission_fst_iff db role resource_name resource_id action_name,
    ?_⟩
  intro hnone
  cases hres : (has_permission db role resource_name resource_id
      action_name).1
  · rfl
  · exfalso
    obtain ⟨p, hmem, -, -, hrid, -⟩ :=
      (has_permission_fst_iff db role resource_name resource_id
        action_name).mp hres
    exact hnone p hmem hrid

/-- Witness for C5: the characterization evaluated at a concrete store with
one scoped permission row. -/
theorem has_permission_characterization_witness :
    (((has_permission [permRW] roleR1 LINK_RESOURCE "L1"
        ACTION_READWRITE).1 = true ↔
      ∃ p ∈ [permRW], p.role_id = some roleR1.id ∧
        p.resource_name = LINK_RESOURCE ∧ p.resource_id = some "L1" ∧
        p.action = ACTION_READWRITE) ∧
    ((∀ p ∈ [permRW], p.resource_id ≠ some "L1") →
      (has_permission [permRW] roleR1 LINK_RESOURCE "L1"
        ACTION_READWRITE).1 = false)) :=
  has_permission_characterization [permRW] roleR1 LINK_RESOURCE "L1"
    ACTION_READWRITE

/-- Claim C8: `check()` performs no writes and mutates nothing: the store it
returns is the one it was given, and re-running the checker on that store
(its other fields are immutable values) returns exactly the same result. -/
theorem check_stateless_idempotent (c : PermissionChecker) (either : Bool) :
    (c.check either).2 = c.db_session ∧
      { c with db_session := (c.check either).2 }.check either =
        c.check either := by
  have h2 : (c.check either).2 = c.db_session := check_snd c either
  refine ⟨h2, ?_⟩
  rw [h2]

/-- Claim C9: in all-of mode with no bypass match, a non-empty role list and
zero check-requests, `check()` returns allow: the conjunction is vacuously
satisfied by the first role. -/
theorem check_all_of_vacuous (c : PermissionChecker)
    (h : c.bypassTriggered = false) (hm : c.pcheck_models = [])
    (hr : c.roles ≠ []) :
    (c.check false).1 = Except.ok true := by
  rw [check_eq]
  obtain ⟨role, rest, hcons⟩ := List.exists_cons_of_ne_nil hr
  have htrue : c.allHolds = true := by
    simp [PermissionChecker.allHolds, hm, hcons]
  simp [h, htrue]

/-- Witness for C9: a checker with one role and no check-requests. -/
theorem check_all_of_vacuous_witness :
    (emptyModelsChecker.check false).1 = Except.ok true :=
  check_all_of_vacuous emptyModelsChecker rfl rfl (by decide)

/-- Claim C10: a scoped grant entails the corresponding global one: whenever
`has_permission` answers true, `has_global_permission` answers true for the
same store, role, resource_name and action_name. -/
theorem has_permission_implies_global (db : Session) (role : Role)
    (resource_name resource_id action_name : String)
    (h : (has_permission db role resource_name resource_id action_name).1 =
      true) :
    (has_global_permission db role resource_name action_name).1 = true := by
  rw [has_global_permission_fst_iff]
  obtain ⟨p, hmem, h1, h2, -, h4⟩ :=
    (has_permission_fst_iff db role resource_name resource_id
      action_name).mp h
  exact ⟨p, hmem, h1, h2, h4⟩

/-- Witness for C10: the scoped row `permRW` satisfies the global check. -/
theorem has_permission_implies_global_witness :
    (has_global_permission [permRW] roleR1 LINK_RESOURCE
      ACTION_READWRITE).1 = true :=
  has_permission_implies_global [permRW] roleR1 LINK_RESOURCE "L1"
    ACTION_READWRITE rfl

/-- Claim C6: for a non-conflicting label, `create_link` adds exactly one
Link, exactly one new anonymous (personal) Role linked to the current user,
and exactly one Permission with action "rw", resource_name "link" and
resource_id the new Link's id, bound to that Role, all flushed by the single
commit; on the failure path before the commit (a conflicting label) the
session is unchanged, so none of the three persist. -/
theorem create_link_atomic (s : SessionState) (current_user : User)
    (label url : String) (description : Option String)
    (link_id role_id perm_id : String)
    (hp1 : s.pending_roles = []) (hp2 : s.pending_permissions = [])
    (hp3 : s.pending_role_user_links = []) (hp4 : s.pending_links = []) :
    (s.committed.links.find? (fun l => l.label == label) = none →
      create_link s current_user label url description link_id role_id
          perm_id =
        (Except.ok ⟨link_id, current_user.id, label, url, description⟩,
         { committed :=
             { users := s.committed.users
               roles := s.committed.roles ++ [⟨role_id, none⟩]
               permissions := s.committed.permissions ++
                 [⟨perm_id, LINK_RESOURCE, some link_id, ACTION_READWRITE,
                   some role_id⟩]
               role_user_links := s.committed.role_user_links ++
                 [⟨current_user.id, role_id⟩]
               links := s.committed.links ++
                 [⟨link_id, current_user.id, label, url, description⟩] }
           pending_roles := []
           pending_permissions := []
           pending_role_user_links := []
           pending_links := [] })) ∧
    (∀ l, s.committed.links.find? (fun l2 => l2.label == label) = some l →
      (create_link s current_user label url description link_id role_id
          perm_id).2 = s ∧
        (create_link s current_user label url description link_id role_id
          perm_id).1 =
          Except.error ⟨409, "Resource already exists."⟩) := by
  constructor
  · intro hfind
    simp [create_link, check_non_existence, hfind, RoleBuilder.new,
      RoleBuilder.addUser, RoleBuilder.make, PermissionBuilder.new,
      PermissionBuilder.forRole, PermissionBuilder.withActionName,
      PermissionBuilder.withResourceName, PermissionBuilder.withResourceId,
      PermissionBuilder.make, SessionState.commit, hp1, hp2, hp3, hp4]
  · intro l hl
    constructor <;> simp [create_link, check_non_existence, hl]

/-- Witness for C6: creating a link with a fresh label in a concrete
session. -/
theorem create_link_atomic_witness :
    (baseSession.committed.links.find? (fun l => l.label == "my-link") =
        none →
      create_link baseSession adminUser "my-link" "https://example.com" none
          "L1" "R1" "P1" =
        (Except.ok ⟨"L1", adminUser.id, "my-link", "https://example.com",
          none⟩,
         { committed :=
             { users := baseSession.committed.users
               roles := baseSession.committed.roles ++ [⟨"R1", none⟩]
               permissions := baseSession.committed.permissions ++
                 [⟨"P1", LINK_RESOURCE, some "L1", ACTION_READWRITE,
                   some "R1"⟩]
               role_user_links := baseSession.committed.role_user_links ++
                 [⟨adminUser.id, "R1"⟩]
               links := baseSession.committed.links ++
                 [⟨"L1", adminUser.id, "my-link", "https://example.com",
                   none⟩] }
           pending_roles := []
           pending_permissions := []
           pending_role_user_links := []
           pending_links := [] })) ∧
    (∀ l, baseSession.committed.links.find? (fun l2 => l2.label == "my-link") =
        some l →
      (create_link baseSession adminUser "my-link" "https://example.com" none
          "L1" "R1" "P1").2 = baseSession ∧
        (create_link baseSession adminUser "my-link" "https://example.com"
          none "L1" "R1" "P1").1 =
          Except.error ⟨409, "Resource already exists."⟩) :=
  create_link_atomic baseSession adminUser "my-link" "https://example.com"
    none "L1" "R1" "P1" rfl rfl rfl rfl

/-- Claim C7: when the target user and role exist and the caller passes the
permission check, `assign_role_to_user` is a no-op returning the
"already has this role" message if a `RoleUserLink(user, role)` row already
exists, and otherwise inserts exactly that one row. -/
theorem assign_role_to_user_no_duplicate (s : SessionState)
    (current_user : User) (user_id role_id : String)
    (hperm : ((assignRoleChecker s current_user).check false).1 =
      Except.ok true)
    (huser : s.committed.users.find? (fun u => u.id == user_id) ≠ none)
    (hrole : s.committed.roles.find? (fun r => r.id == role_id) ≠ none)
    (hp1 : s.pending_roles = []) (hp2 : s.pending_permissions = [])
    (hp3 : s.pending_role_user_links = []) (hp4 : s.pending_links = []) :
    (s.committed.role_user_links.find?
        (fun l => l.user_id == user_id && l.role_id == role_id) ≠ none →
      assign_role_to_user s current_user user_id role_id =
        (Except.ok ⟨"User already has this role."⟩, s)) ∧
    (s.committed.role_user_links.find?
        (fun l => l.user_id == user_id && l.role_id == role_id) = none →
      assign_role_to_user s current_user user_id role_id =
        (Except.ok ⟨"Role assigned to user successfully."⟩,
         { committed :=
             { users := s.committed.users
               roles := s.committed.roles
               permissions := s.committed.permissions
               role_user_links := s.committed.role_user_links ++
                 [⟨user_id, role_id⟩]
               links := s.committed.links }
           pending_roles := []
           pending_permissions := []
           pending_role_user_links := []
           pending_links := [] })) := by
  obtain ⟨u, hu⟩ := Option.ne_none_iff_exists'.mp huser
  obtain ⟨r, hr⟩ := Option.ne_none_iff_exists'.mp hrole
  constructor
  · intro hlink
    obtain ⟨l, hl⟩ := Option.ne_none_iff_exists'.mp hlink
    simp [assign_role_to_user, hperm, hu, hr, hl, check_existence]
  · intro hlink
    simp [assign_role_to_user, hperm, hu, hr, hlink, check_existence,
      SessionState.commit, hp1, hp2, hp3, hp4]

/-- Witness for C7: an admin assigns an existing role to an existing user in
a concrete session with no prior link row. -/
theorem assign_role_to_user_no_duplicate_witness :
    (baseSession.committed.role_user_links.find?
        (fun l => l.user_id == "u1" && l.role_id == "r9") ≠ none →
      assign_role_to_user baseSession adminUser "u1" "r9" =
        (Except.ok ⟨"User already has this role."⟩, baseSession)) ∧
    (baseSession.committed.role_user_links.find?
        (fun l => l.user_id == "u1" && l.role_id == "r9") = none →
      assign_role_to_user baseSession adminUser "u1" "r9" =
        (Except.ok ⟨"Role assigned to user successfully."⟩,
         { committed :=
             { users := baseSession.committed.users
               roles := baseSession.committed.roles
               permissions := baseSession.committed.permissions
               role_user_links := baseSession.committed.role_user_links ++
                 [⟨"u1", "r9"⟩]
               links := baseSession.committed.links }
           pending_roles := []
           pending_permissions := []
           pending_role_user_links := []
           pending_links := [] })) :=
  assign_role_to_user_no_duplicate baseSession adminUser "u1" "r9" rfl
    (by decide) (by decide) rfl rfl rfl rfl
